import Mathlib

set_option maxHeartbeats 1000000
set_option maxRecDepth 8192

/-!
Verification of the gmetric encoder/sender (src/gmetric.py).

The Python module is embedded shallowly:

* `TypeEnum`, `SlopeEnum` mirror the two enums (lines 61-100).
* `Gmetric` is a record of the descriptor's fields; the process-wide
  hostname (`socket.gethostname()`, an external collaborator) is the
  `myhost` field, fixed at construction like `self.__myhost`.
* Each branch of `Gmetric.__check_gv_var__` / `__check_gm_var__`
  (lines 158-206) becomes a checker returning `Except Unit Unit`
  (`Except.error ()` models `raise ValueError('')`); the attribute
  interception of `__setattr__` (lines 150-156) becomes per-field
  setters that run the checker and only then build the updated record,
  so on error no updated descriptor exists (the field keeps its value).
* The XDR packing layer (`xdrlib.Packer`) is modelled byte-exactly:
  big-endian 4-byte scalars and length-prefixed zero-padded strings.
  `pack_uint` is `struct.pack` with format `>L` and therefore fails
  (`struct.error`) for arguments outside `[0, 2^32)`; fallible packing
  is `Option (List Nat)` with `none` for a raised `struct.error`.
* `Gmetric.get_metabuf` / `get_valuebuf` (lines 219-301) and
  `Sender` (lines 304-353) follow the source statement by statement;
  the UDP socket is modelled as a `SenderSt` record holding whether the
  socket was created and the list of datagrams sent, in order.
-/

/-- The double-quote character (code point 34), written via `Char.ofNat`. -/
def quoteChar : Char := Char.ofNat 34

/-- UTF-8 bytes of one code point (what Python `str.encode()` emits per character). -/
def utf8c (c : Char) : List Nat :=
  let n := c.toNat
  if n < 128 then [n]
  else if n < 2048 then [192 + n / 64, 128 + n % 64]
  else if n < 65536 then [224 + n / 4096, 128 + n / 64 % 64, 128 + n % 64]
  else [240 + n / 262144, 128 + n / 4096 % 64, 128 + n / 64 % 64, 128 + n % 64]

/-- UTF-8 encoding of a Python `str` (`value.encode()`), as a list of bytes. -/
def utf8 (s : String) : List Nat := (s.toList.map utf8c).flatten

/-- Big-endian 4-byte rendering of a natural number below `2^32`. -/
def be32 (n : Nat) : List Nat :=
  [n / 16777216 % 256, n / 65536 % 256, n / 256 % 256, n % 256]

/-- `xdrlib.Packer.pack_uint`: `struct.pack` with format `>L`, which raises
`struct.error` when the argument is not below `2^32` (modelled as `none`). -/
def pack_uint (n : Nat) : Option (List Nat) :=
  if n < 4294967296 then some (be32 n) else none

/-- `xdrlib.Packer.pack_int` at the nonnegative in-range tags the source uses
(128 and 133): `struct.pack` with format `>l`, big-endian two's complement,
which agrees with `be32` on `[0, 2^31)`. -/
def pack_int (n : Nat) : List Nat := be32 n

/-- Zero-padding length to the next multiple of 4 (from `pack_fstring`). -/
def padLen (n : Nat) : Nat := (4 - n % 4) % 4

/-- `xdrlib.Packer.pack_string` on a byte string: `pack_uint` of the length,
then the bytes zero-padded to a 4-byte boundary (`pack_fstring`). -/
def pack_bytes (b : List Nat) : Option (List Nat) :=
  (pack_uint b.length).bind fun lenB =>
    some (lenB ++ b ++ List.replicate (padLen b.length) 0)

/-- `pack_string(s.encode())` as the source always calls it on `str` values. -/
def packStr (s : String) : Option (List Nat) := pack_bytes (utf8 s)

/-- Total rendering of an XDR string; equals `packStr s` whenever the latter
succeeds (i.e. whenever the encoded length fits `2^32`). -/
def packStrT (s : String) : List Nat :=
  be32 (utf8 s).length ++ utf8 s ++ List.replicate (padLen (utf8 s).length) 0

/-- `xdrlib.Packer.pack_bool`: four bytes, value 0 or 1. -/
def pack_bool (b : Bool) : List Nat := if b then be32 1 else be32 0

/-- `TypeEnum` (src/gmetric.py lines 61-80). -/
inductive TypeEnum
  | STRING
  | INT8
  | UINT8
  | INT16
  | UINT16
  | INT32
  | UINT32
  | FLOAT
  | DOUBLE
deriving DecidableEq

/-- The `.value` string of each `TypeEnum` member. -/
def TypeEnum.value : TypeEnum → String
  | .STRING => "string"
  | .INT8 => "int8"
  | .UINT8 => "uint8"
  | .INT16 => "int16"
  | .UINT16 => "uint16"
  | .INT32 => "int32"
  | .UINT32 => "uint32"
  | .FLOAT => "float"
  | .DOUBLE => "double"

/-- `SlopeEnum` (src/gmetric.py lines 83-100). -/
inductive SlopeEnum
  | ZERO
  | POSITIVE
  | NEGATIVE
  | BOTH
  | UNSPECIFIED
  | DERIVATIVE
deriving DecidableEq

/-- The integer `.value` of each `SlopeEnum` member. -/
def SlopeEnum.value : SlopeEnum → Nat
  | .ZERO => 0
  | .POSITIVE => 1
  | .NEGATIVE => 2
  | .BOTH => 3
  | .UNSPECIFIED => 4
  | .DERIVATIVE => 5

/-- The `Gmetric` descriptor (src/gmetric.py lines 103-148).  `myhost` is
`self.__myhost`, the local hostname resolved once at construction. -/
structure Gmetric where
  myhost : String
  gv_name : String
  gv_value : String
  gv_type : TypeEnum
  gv_units : String
  gv_slope : SlopeEnum
  gv_tmax : Nat
  gv_dmax : Nat
  gm_cluster : Option String
  gm_group : Option (List String)
  gm_desc : Option String
  gm_title : Option String
  gm_spoof_host : Option String
  gm_spoof_heartbeat : Bool
deriving DecidableEq

/-- The defaults `Gmetric.__init__` assigns (lines 133-148); every default
passes its own validation check. -/
def Gmetric.mkDefault (myhost : String) : Gmetric :=
  { myhost := myhost
    gv_name := ""
    gv_value := ""
    gv_type := TypeEnum.STRING
    gv_units := ""
    gv_slope := SlopeEnum.BOTH
    gv_tmax := 60
    gv_dmax := 0
    gm_cluster := none
    gm_group := none
    gm_desc := none
    gm_title := none
    gm_spoof_host := none
    gm_spoof_heartbeat := false }

/-- Python truthiness of an optional string (`None` and `''` are falsy). -/
def truthyStr : Option String → Bool
  | none => false
  | some s => decide (s ≠ "")

/-- `Gmetric.__check_containing_quot__` (lines 158-160): Python
`value and '"' in value`, truthy exactly for a non-empty string holding a
double quote. -/
def check_containing_quot (value : String) : Bool :=
  (!(value == "")) && value.toList.contains quoteChar

/-- The `name`/`value`/`units` branch of `Gmetric.__check_gv_var__`
(lines 164-168) at string-typed input (the `isinstance(value, str)` guard
passes): raise iff the string contains a double quote. -/
def check_gv_str (value : String) : Except Unit Unit :=
  if check_containing_quot value then Except.error () else Except.ok ()

/-- The `tmax`/`dmax` branch of `Gmetric.__check_gv_var__` (lines 175-177)
at int-typed input: raise iff `int(value) < 0`. -/
def check_gv_nonneg (value : Int) : Except Unit Unit :=
  if value < 0 then Except.error () else Except.ok ()

/-- The `cluster`/`desc`/`title` branch of `Gmetric.__check_gm_var__`
(lines 181-185) at `None`-or-string input: raise iff the value is a truthy
string containing a double quote. -/
def check_gm_opt_str (value : Option String) : Except Unit Unit :=
  match value with
  | none => Except.ok ()
  | some s =>
      if (!(s == "")) && check_containing_quot s then Except.error ()
      else Except.ok ()

/-- The loop body of the `group` branch of `Gmetric.__check_gm_var__`
(lines 190-192): scan the elements in order, raising at the first element
containing a double quote. -/
def check_group_elems : List String → Except Unit Unit
  | [] => Except.ok ()
  | e :: rest =>
      if check_containing_quot e then Except.error () else check_group_elems rest

/-- The `group` branch of `Gmetric.__check_gm_var__` (lines 186-192) at
`None`-or-list-of-strings input. -/
def check_gm_group (value : Option (List String)) : Except Unit Unit :=
  match value with
  | none => Except.ok ()
  | some l => check_group_elems l

/-- First component of `value.split(':', 1)`: everything before the first
colon. -/
def spoofip (value : String) : List Char :=
  value.toList.takeWhile (fun c => c ≠ ':')

/-- Second component of `value.split(':', 1)`: everything after the first
colon. -/
def spoofhost (value : String) : List Char :=
  (value.toList.dropWhile (fun c => c ≠ ':')).drop 1

/-- `Gmetric.__validate_spoof_host__` (lines 200-206).  Python returns
`False` (here `some false`) when the value has no colon or an empty part
around the first colon, and falls off the end returning `None` (here `none`)
otherwise. -/
def validate_spoof_host (value : String) : Option Bool :=
  if value.toList.contains ':' then
    if (spoofip value).length = 0 ∨ (spoofhost value).length = 0 then some false
    else none
  else some false

/-- Python truthiness of the validator's result: `None` and `False` are
falsy, only `True` would be truthy. -/
def optBoolTruthy : Option Bool → Bool
  | none => false
  | some b => b

/-- The `spoof_host` branch of `Gmetric.__check_gm_var__` (lines 193-195):
`if value and Gmetric.__validate_spoof_host__(value): raise ValueError('')`. -/
def check_gm_spoof_host (value : Option String) : Except Unit Unit :=
  match value with
  | none => Except.ok ()
  | some s =>
      if (!(s == "")) && optBoolTruthy (validate_spoof_host s) then Except.error ()
      else Except.ok ()

/-- Assignment `g.gv_name = v` through `__setattr__` (lines 150-156): the
check runs first, and only when it passes is the field written, so a raised
`ValueError` leaves every field with its prior value. -/
def Gmetric.setName (g : Gmetric) (v : String) : Except Unit Gmetric :=
  match check_gv_str v with
  | Except.ok _ => Except.ok { g with gv_name := v }
  | Except.error e => Except.error e

/-- Assignment `g.gv_value = v` through `__setattr__`. -/
def Gmetric.setValue (g : Gmetric) (v : String) : Except Unit Gmetric :=
  match check_gv_str v with
  | Except.ok _ => Except.ok { g with gv_value := v }
  | Except.error e => Except.error e

/-- Assignment `g.gv_units = v` through `__setattr__`. -/
def Gmetric.setUnits (g : Gmetric) (v : String) : Except Unit Gmetric :=
  match check_gv_str v with
  | Except.ok _ => Except.ok { g with gv_units := v }
  | Except.error e => Except.error e

/-- Assignment `g.gv_tmax = v` through `__setattr__`; an accepted value is
stored unchanged (for `v ≥ 0`, `Int.toNat` is that value). -/
def Gmetric.setTmax (g : Gmetric) (v : Int) : Except Unit Gmetric :=
  match check_gv_nonneg v with
  | Except.ok _ => Except.ok { g with gv_tmax := v.toNat }
  | Except.error e => Except.error e

/-- Assignment `g.gv_dmax = v` through `__setattr__`. -/
def Gmetric.setDmax (g : Gmetric) (v : Int) : Except Unit Gmetric :=
  match check_gv_nonneg v with
  | Except.ok _ => Except.ok { g with gv_dmax := v.toNat }
  | Except.error e => Except.error e

/-- Assignment `g.gm_cluster = v` through `__setattr__`. -/
def Gmetric.setCluster (g : Gmetric) (v : Option String) : Except Unit Gmetric :=
  match check_gm_opt_str v with
  | Except.ok _ => Except.ok { g with gm_cluster := v }
  | Except.error e => Except.error e

/-- Assignment `g.gm_desc = v` through `__setattr__`. -/
def Gmetric.setDesc (g : Gmetric) (v : Option String) : Except Unit Gmetric :=
  match check_gm_opt_str v with
  | Except.ok _ => Except.ok { g with gm_desc := v }
  | Except.error e => Except.error e

/-- Assignment `g.gm_title = v` through `__setattr__`. -/
def Gmetric.setTitle (g : Gmetric) (v : Option String) : Except Unit Gmetric :=
  match check_gm_opt_str v with
  | Except.ok _ => Except.ok { g with gm_title := v }
  | Except.error e => Except.error e

/-- Assignment `g.gm_group = v` through `__setattr__`. -/
def Gmetric.setGroup (g : Gmetric) (v : Option (List String)) : Except Unit Gmetric :=
  match check_gm_group v with
  | Except.ok _ => Except.ok { g with gm_group := v }
  | Except.error e => Except.error e

/-- Assignment `g.gm_spoof_host = v` through `__setattr__`. -/
def Gmetric.setSpoofHost (g : Gmetric) (v : Option String) : Except Unit Gmetric :=
  match check_gm_spoof_host v with
  | Except.ok _ => Except.ok { g with gm_spoof_host := v }
  | Except.error e => Except.error e

/-- `Gmetric.set_heartbeat` (lines 208-217): each assignment goes through
`__setattr__` with a value its check accepts, so the transform is the plain
field update. -/
def Gmetric.set_heartbeat (g : Gmetric) : Gmetric :=
  { g with
    gv_name := "heartbeat"
    gv_type := TypeEnum.UINT32
    gv_value := "0"
    gv_units := ""
    gv_slope := SlopeEnum.ZERO
    gv_tmax := 0
    gv_dmax := 0
    gm_spoof_heartbeat := true }

/-- The originating-host computation of `get_metabuf`/`get_valuebuf`
(lines 225-227 and 288-290): `targethost = self.__myhost; if
self.gm_spoof_host: targethost = self.gm_spoof_host`. -/
def Gmetric.targethost (g : Gmetric) : String :=
  match g.gm_spoof_host with
  | some s => if s = "" then g.myhost else s
  | none => g.myhost

/-- The metric name packed into both buffers (lines 236-239, 292-295):
the literal `heartbeat` when `gm_spoof_heartbeat` is set. -/
def Gmetric.wireName (g : Gmetric) : String :=
  if g.gm_spoof_heartbeat then "heartbeat" else g.gv_name

/-- `Gmetric.__get_meta_value_buf__` (lines 235-249), as the bytes it
appends to the packer, in source order: name, spoofed flag, type string,
name again, units, slope, tmax, dmax. -/
def Gmetric.meta_value_buf (g : Gmetric) : Option (List Nat) :=
  (packStr g.wireName).bind fun nameB =>
  (packStr g.gv_type.value).bind fun typeB =>
  (packStr g.wireName).bind fun nameB2 =>
  (packStr g.gv_units).bind fun unitsB =>
  (pack_uint g.gv_slope.value).bind fun slopeB =>
  (pack_uint g.gv_tmax).bind fun tmaxB =>
  (pack_uint g.gv_dmax).bind fun dmaxB =>
  some (nameB ++ pack_bool (truthyStr g.gm_spoof_host) ++ typeB ++ nameB2
        ++ unitsB ++ slopeB ++ tmaxB ++ dmaxB)

/-- The `gmelement is not None` test of the count loop (lines 253-256). -/
def optCount : Option String → Nat
  | none => 0
  | some _ => 1

/-- The group contribution to the count (lines 257-258): `len(group)` when
the group is truthy; an empty or absent group contributes 0 either way. -/
def groupCount : Option (List String) → Nat
  | none => 0
  | some l => l.length

/-- The extra-metadata count `mlen` of `Gmetric.__get_meta_meta_buf__`
(lines 252-260): one per `is not None` among cluster/desc/title/spoof_host,
plus the group length, plus one when heartbeat. -/
def Gmetric.mlen (g : Gmetric) : Nat :=
  optCount g.gm_cluster + optCount g.gm_desc + optCount g.gm_title
  + optCount g.gm_spoof_host + groupCount g.gm_group
  + (if g.gm_spoof_heartbeat then 1 else 0)

/-- One optional key/value pair as `__get_meta_meta_buf__` emits it
(lines 262-270, 275-277): emitted only when the field is truthy, i.e.
set to a non-empty string. -/
def optPair (key : String) : Option String → List (String × String)
  | none => []
  | some s => if s = "" then [] else [(key, s)]

/-- The `GROUP` pairs (lines 271-274): one per element, in order; the
truthiness guard on the list itself only skips an empty iteration. -/
def groupPairs : Option (List String) → List (String × String)
  | none => []
  | some l => l.map fun e => ("GROUP", e)

/-- The trailing heartbeat pair (lines 278-280). -/
def hbPair (b : Bool) : List (String × String) :=
  if b then [("SPOOF_HEARTBEAT", "yes")] else []

/-- The key/value pairs `__get_meta_meta_buf__` actually emits, in source
order. -/
def Gmetric.metaPairs (g : Gmetric) : List (String × String) :=
  optPair "CLUSTER" g.gm_cluster ++ optPair "DESC" g.gm_desc
  ++ optPair "TITLE" g.gm_title ++ groupPairs g.gm_group
  ++ optPair "SPOOF_HOST" g.gm_spoof_host ++ hbPair g.gm_spoof_heartbeat

/-- Packing a pair list: for each pair the key string then the value string,
as the emission code does. -/
def packPairs : List (String × String) → Option (List Nat)
  | [] => some []
  | p :: rest =>
      (packStr p.1).bind fun kb =>
      (packStr p.2).bind fun vb =>
      (packPairs rest).bind fun rb =>
      some (kb ++ vb ++ rb)

/-- Total form of `packPairs`, equal whenever the latter succeeds. -/
def packPairsT : List (String × String) → List Nat
  | [] => []
  | p :: rest => packStrT p.1 ++ packStrT p.2 ++ packPairsT rest

/-- `Gmetric.__get_meta_meta_buf__` (lines 251-280) as the bytes it appends:
the `uint` count, then the emitted pairs. -/
def Gmetric.meta_meta_buf (g : Gmetric) : Option (List Nat) :=
  (pack_uint g.mlen).bind fun cntB =>
  (packPairs g.metaPairs).bind fun pairsB =>
  some (cntB ++ pairsB)

/-- `Gmetric.get_metabuf` (lines 219-233): `pack_int(128)`, the originating
host, then the value-description fields, then the extra metadata. -/
def Gmetric.get_metabuf (g : Gmetric) : Option (List Nat) :=
  (packStr g.targethost).bind fun hostB =>
  (g.meta_value_buf).bind fun mvB =>
  (g.meta_meta_buf).bind fun mmB =>
  some (pack_int 128 ++ hostB ++ mvB ++ mmB)

/-- `Gmetric.get_valuebuf` (lines 282-301): `pack_int(128 + 5)`, host,
heartbeat-aware name, spoofed flag, the fixed format string, and
`str(self.gv_value)` (the identity on the `str`-typed field). -/
def Gmetric.get_valuebuf (g : Gmetric) : Option (List Nat) :=
  (packStr g.targethost).bind fun hostB =>
  (packStr g.wireName).bind fun nameB =>
  (packStr "%s").bind fun fmtB =>
  (packStr g.gv_value).bind fun valB =>
  some (pack_int 133 ++ hostB ++ nameB ++ pack_bool (truthyStr g.gm_spoof_host)
        ++ fmtB ++ valB)

/-- Transport state: whether `create_socket` has run, and the datagrams
handed to `sendto`, in order. -/
structure SenderSt where
  socketCreated : Bool
  sent : List (List Nat)
deriving DecidableEq

/-- The destination-port guard of `Sender.__init__` (lines 306-309):
`if dstport <= 0 or dstport >= 65536: raise ValueError('')`; on success the
sender starts with no socket and nothing sent.  Host resolution
(`socket.gethostbyname`) is an external collaborator and not modelled. -/
def Sender.mkSender (dstport : Int) : Except String SenderSt :=
  if dstport ≤ 0 ∨ 65536 ≤ dstport then Except.error ""
  else Except.ok { socketCreated := false, sent := [] }

/-- `Sender.send` (lines 322-339): the spoof-consistency guard raises
`ValueError('spoof-heatbeat needs spoof-host')` first; then both buffers are
encoded (an encoding error propagates before any socket use); then the
socket is created lazily and the metadata datagram and value datagram are
sent, in that order.  On any raise the state is returned unchanged. -/
def Sender.send (st : SenderSt) (g : Gmetric) : SenderSt × Except String Unit :=
  if g.gm_spoof_heartbeat && !(truthyStr g.gm_spoof_host) then
    (st, Except.error "spoof-heatbeat needs spoof-host")
  else
    match g.get_metabuf, g.get_valuebuf with
    | some mbuf, some vbuf =>
        ({ socketCreated := true, sent := st.sent ++ [mbuf, vbuf] }, Except.ok ())
    | _, _ => (st, Except.error "struct.error")

/-- `Sender.close_socket` (lines 341-347): drop the socket; idempotent and
safe when never opened. -/
def Sender.close_socket (st : SenderSt) : SenderSt :=
  { st with socketCreated := false }

/-! ### Spec-side definitions

These follow the wording of the specification and the claims, for the
refinement theorems that compare them with the source embedding above. -/

/-- Spec §3: a string field must be quote-free. -/
def quoteFreeStr (s : String) : Bool := !(s.toList.contains quoteChar)

/-- Spec §3: an optional string field, if present, must be quote-free. -/
def quoteFreeOpt : Option String → Bool
  | none => true
  | some s => quoteFreeStr s

/-- Spec §3: `spoof_host`, if present, must be of the exact form
`ip:alias` with both parts non-empty — i.e. the source validator finds
nothing wrong (returns `None`). -/
def wfSpoofOpt : Option String → Bool
  | none => true
  | some s => (validate_spoof_host s).isNone

/-- A descriptor satisfying the data-model invariants of spec §3: quote-free
string fields (including each group element) and a well-formed `spoof_host`
when present. -/
def Gmetric.validB (g : Gmetric) : Bool :=
  quoteFreeStr g.gv_name && quoteFreeStr g.gv_value && quoteFreeStr g.gv_units
  && quoteFreeOpt g.gm_cluster && quoteFreeOpt g.gm_desc && quoteFreeOpt g.gm_title
  && (match g.gm_group with | none => true | some l => l.all quoteFreeStr)
  && wfSpoofOpt g.gm_spoof_host

/-- An optional string field that is unset or non-empty (so that Python's
`is not None` test and truthiness test agree on it). -/
def optNonemptyB : Option String → Bool
  | none => true
  | some s => !(s == "")

/-- Claim wording: the originating host is `spoof_host` if set, else the
local hostname. -/
def Gmetric.claimHost (g : Gmetric) : String :=
  match g.gm_spoof_host with
  | some s => s
  | none => g.myhost

/-- Claim wording (C2 step 12): one pair for each present (set) optional
field. -/
def claimOptPair (key : String) : Option String → List (String × String)
  | none => []
  | some s => [(key, s)]

/-- Claim wording (C2 step 12): the pair list in the fixed order `CLUSTER`,
`DESC`, `TITLE`, one `GROUP` pair per element in caller order, `SPOOF_HOST`,
then the heartbeat pair. -/
def Gmetric.claimPairs (g : Gmetric) : List (String × String) :=
  claimOptPair "CLUSTER" g.gm_cluster ++ claimOptPair "DESC" g.gm_desc
  ++ claimOptPair "TITLE" g.gm_title ++ groupPairs g.gm_group
  ++ claimOptPair "SPOOF_HOST" g.gm_spoof_host ++ hbPair g.gm_spoof_heartbeat

/-- Claim C2's metadata layout, written from the claim's words: int32 128;
originating host; metric name (heartbeat-aware); the spoofed flag; the
lower-case type name; the name again; units; slope ordinal; tmax; dmax; a
count of the extra pairs; then the pairs. -/
def Gmetric.metabuf_claim (g : Gmetric) : List Nat :=
  pack_int 128 ++ packStrT g.claimHost ++ packStrT g.wireName
  ++ pack_bool (truthyStr g.gm_spoof_host) ++ packStrT g.gv_type.value
  ++ packStrT g.wireName ++ packStrT g.gv_units ++ be32 g.gv_slope.value
  ++ be32 g.gv_tmax ++ be32 g.gv_dmax ++ be32 g.claimPairs.length
  ++ packPairsT g.claimPairs

/-- Claim C3's value layout, written from the claim's words: int32 133;
originating host; metric name (heartbeat-aware); the spoofed flag; the
fixed format string; the stringified value. -/
def Gmetric.valuebuf_claim (g : Gmetric) : List Nat :=
  pack_int 133 ++ packStrT g.claimHost ++ packStrT g.wireName
  ++ pack_bool (truthyStr g.gm_spoof_host) ++ packStrT "%s"
  ++ packStrT g.gv_value

/-- A string whose XDR encoding fits the `uint32` length prefix. -/
def fitsStr (s : String) : Bool := decide ((utf8 s).length < 4294967296)

/-- An optional string field whose encoding fits, when present. -/
def optFitsB : Option String → Bool
  | none => true
  | some s => fitsStr s

/-- A group whose length and element encodings fit, when present. -/
def groupFitsB : Option (List String) → Bool
  | none => true
  | some l => decide (l.length < 268435456) && l.all fitsStr

/-- Every quantity the encoder hands to `pack_uint` (directly or through a
string length prefix) fits the XDR `uint32` range. -/
def Gmetric.fits32 (g : Gmetric) : Bool :=
  fitsStr g.myhost && fitsStr g.gv_name && fitsStr g.gv_units && fitsStr g.gv_value
  && decide (g.gv_tmax < 4294967296) && decide (g.gv_dmax < 4294967296)
  && optFitsB g.gm_cluster && optFitsB g.gm_desc && optFitsB g.gm_title
  && optFitsB g.gm_spoof_host && groupFitsB g.gm_group

/-! ### Concrete descriptors and states used by counterexamples and
witnesses -/

/-- Descriptor refuting C2 as stated: valid per spec §3, with `cluster` set
to the empty string. -/
def gC2 : Gmetric := { Gmetric.mkDefault "myhost" with gm_cluster := some "" }

/-- Descriptor with every optional field populated non-trivially. -/
def gFull : Gmetric :=
  { Gmetric.mkDefault "myhost" with
    gv_name := "temperature"
    gv_value := "28"
    gv_type := TypeEnum.INT8
    gv_units := "Celsius"
    gv_slope := SlopeEnum.BOTH
    gv_tmax := 30
    gv_dmax := 360
    gm_cluster := some "c1"
    gm_group := some ["g1", "g2"]
    gm_desc := some "a sample"
    gm_title := some "Temperature"
    gm_spoof_host := some "10.0.0.1:dev1" }

/-- Descriptor refuting C8 as stated: `gv_tmax` was accepted by validation
but does not fit the XDR `uint32` range. -/
def gC8 : Gmetric := { Gmetric.mkDefault "myhost" with gv_tmax := 4294967296 }

/-- Descriptor refuting C10 as stated: `cluster` set to the empty string. -/
def gC10 : Gmetric := { Gmetric.mkDefault "myhost" with gm_cluster := some "" }

/-- A fresh transport state: socket not yet created, nothing sent. -/
def stFresh : SenderSt := { socketCreated := false, sent := [] }

/-- A second metric for the back-to-back send witness. -/
def gW2 : Gmetric :=
  { Gmetric.mkDefault "myhost" with
    gv_name := "voltage"
    gv_value := "220"
    gv_type := TypeEnum.INT16
    gv_units := "Voltage" }

/-- A string consisting of one double-quote character. -/
def quoteStr : String := String.mk [quoteChar]

/-! ### Packing lemmas -/

/-- A successful `pack_uint` yields the big-endian bytes and certifies the
range. -/
theorem pack_uint_eq_some {n : Nat} {b : List Nat} (h : pack_uint n = some b) :
    b = be32 n ∧ n < 4294967296 := by
  unfold pack_uint at h
  split at h
  · exact ⟨(Option.some.injEq _ _ ▸ h).symm, by assumption⟩
  · exact absurd h (by simp)

/-- `pack_uint` succeeds on the `uint32` range. -/
theorem pack_uint_ok {n : Nat} (h : n < 4294967296) :
    pack_uint n = some (be32 n) := by
  unfold pack_uint
  simp [h]

/-- A successful `packStr` yields exactly the total rendering. -/
theorem packStr_eq_some {s : String} {b : List Nat} (h : packStr s = some b) :
    b = packStrT s := by
  unfold packStr pack_bytes at h
  rw [Option.bind_eq_some] at h
  obtain ⟨lenB, hlen, hsome⟩ := h
  obtain ⟨hb, -⟩ := pack_uint_eq_some hlen
  subst hb
  unfold packStrT
  exact ((Option.some.injEq _ _).mp hsome).symm

/-- `packStr` succeeds whenever the encoded length fits. -/
theorem packStr_ok {s : String} (h : (utf8 s).length < 4294967296) :
    packStr s = some (packStrT s) := by
  unfold packStr pack_bytes packStrT
  rw [pack_uint_ok h]
  rfl

/-- `packStr` success from the `fitsStr` bound. -/
theorem packStr_ok_fits {s : String} (h : fitsStr s = true) :
    packStr s = some (packStrT s) := by
  apply packStr_ok
  simpa [fitsStr] using h

/-- A successful `packPairs` yields exactly the total rendering. -/
theorem packPairs_eq_some :
    ∀ {l : List (String × String)} {b : List Nat},
      packPairs l = some b → b = packPairsT l := by
  intro l
  induction l with
  | nil =>
      intro b h
      unfold packPairs at h
      simpa [packPairsT] using ((Option.some.injEq _ _).mp h).symm
  | cons p rest ih =>
      intro b h
      unfold packPairs at h
      rw [Option.bind_eq_some] at h
      obtain ⟨kb, hk, h⟩ := h
      rw [Option.bind_eq_some] at h
      obtain ⟨vb, hv, h⟩ := h
      rw [Option.bind_eq_some] at h
      obtain ⟨rb, hr, h⟩ := h
      have hb := ((Option.some.injEq _ _).mp h).symm
      subst hb
      rw [packStr_eq_some hk, packStr_eq_some hv, ih hr]
      rfl

/-- `packPairs` succeeds when every pair's components fit. -/
theorem packPairs_ok :
    ∀ {l : List (String × String)},
      (∀ p ∈ l, fitsStr p.1 = true ∧ fitsStr p.2 = true) →
      packPairs l = some (packPairsT l) := by
  intro l
  induction l with
  | nil => intro _; rfl
  | cons p rest ih =>
      intro h
      obtain ⟨h1, h2⟩ := h p (List.mem_cons_self p rest)
      unfold packPairs
      rw [packStr_ok_fits h1, packStr_ok_fits h2,
        ih (fun q hq => h q (List.mem_cons_of_mem p hq))]
      rfl

/-! ### Descriptor lemmas -/

/-- A well-formed `spoof_host` string is non-empty (it contains a colon). -/
theorem wfSpoof_nonempty {s : String}
    (h : (validate_spoof_host s).isNone = true) : s ≠ "" := by
  intro he
  subst he
  simp [validate_spoof_host] at h

/-- Under a well-formed (or absent) `spoof_host`, the source's truthiness
test on it agrees with "set". -/
theorem wfSpoof_optNonempty {v : Option String} (h : wfSpoofOpt v = true) :
    optNonemptyB v = true := by
  cases v with
  | none => rfl
  | some s =>
      simp only [optNonemptyB, Bool.not_eq_eq_eq_not, Bool.not_false,
        beq_iff_eq, decide_eq_true_eq]
      simpa using wfSpoof_nonempty (by simpa [wfSpoofOpt] using h)

/-- When `spoof_host` is unset or non-empty, the source's originating host
equals the claim's. -/
theorem targethost_eq_claimHost {g : Gmetric}
    (h : optNonemptyB g.gm_spoof_host = true) :
    g.targethost = g.claimHost := by
  unfold Gmetric.targethost Gmetric.claimHost
  cases hs : g.gm_spoof_host with
  | none => rfl
  | some s =>
      rw [hs] at h
      simp only [optNonemptyB] at h
      have hne : s ≠ "" := by simpa using h
      simp [hne]

/-- When an optional field is unset or non-empty, the emitted pair equals
the claim's pair. -/
theorem optPair_eq_claim {k : String} {v : Option String}
    (h : optNonemptyB v = true) : optPair k v = claimOptPair k v := by
  cases v with
  | none => rfl
  | some s =>
      simp only [optNonemptyB] at h
      have hne : s ≠ "" := by simpa using h
      simp [optPair, claimOptPair, hne]

/-- The count written by the source always equals the number of pairs the
claim's reading would emit (one per set field). -/
theorem mlen_eq_claimPairs_length (g : Gmetric) :
    g.mlen = g.claimPairs.length := by
  unfold Gmetric.mlen Gmetric.claimPairs
  cases g.gm_cluster <;> cases g.gm_desc <;> cases g.gm_title <;>
    cases g.gm_spoof_host <;> cases hg : g.gm_group <;>
    cases hb : g.gm_spoof_heartbeat <;>
    simp [claimOptPair, groupPairs, hbPair, optCount, groupCount] <;> omega

/-- When each optional string field is unset or non-empty, the source emits
exactly the claim's pairs. -/
theorem metaPairs_eq_claim {g : Gmetric}
    (hc : optNonemptyB g.gm_cluster = true) (hd : optNonemptyB g.gm_desc = true)
    (ht : optNonemptyB g.gm_title = true)
    (hs : optNonemptyB g.gm_spoof_host = true) :
    g.metaPairs = g.claimPairs := by
  unfold Gmetric.metaPairs Gmetric.claimPairs
  rw [optPair_eq_claim hc, optPair_eq_claim hd, optPair_eq_claim ht,
    optPair_eq_claim hs]

/-! ### Buffer extraction and success lemmas -/

/-- The last conjunct of descriptor validity: the `spoof_host` field is
well formed when present. -/
theorem validB_spoof {g : Gmetric} (h : g.validB = true) :
    wfSpoofOpt g.gm_spoof_host = true := by
  simp only [Gmetric.validB, Bool.and_eq_true] at h
  exact h.2

/-- A successful `meta_value_buf` carries exactly the eight value-description
fields, in source order. -/
theorem meta_value_buf_eq_some {g : Gmetric} {b : List Nat}
    (h : g.meta_value_buf = some b) :
    b = packStrT g.wireName ++ pack_bool (truthyStr g.gm_spoof_host)
        ++ packStrT g.gv_type.value ++ packStrT g.wireName
        ++ packStrT g.gv_units ++ be32 g.gv_slope.value
        ++ be32 g.gv_tmax ++ be32 g.gv_dmax := by
  unfold Gmetric.meta_value_buf at h
  rw [Option.bind_eq_some] at h
  obtain ⟨nameB, h1, h⟩ := h
  rw [Option.bind_eq_some] at h
  obtain ⟨typeB, h2, h⟩ := h
  rw [Option.bind_eq_some] at h
  obtain ⟨nameB2, h3, h⟩ := h
  rw [Option.bind_eq_some] at h
  obtain ⟨unitsB, h4, h⟩ := h
  rw [Option.bind_eq_some] at h
  obtain ⟨slopeB, h5, h⟩ := h
  rw [Option.bind_eq_some] at h
  obtain ⟨tmaxB, h6, h⟩ := h
  rw [Option.bind_eq_some] at h
  obtain ⟨dmaxB, h7, h⟩ := h
  have hb := (Option.some.injEq _ _).mp h
  rw [packStr_eq_some h1, packStr_eq_some h2, packStr_eq_some h3,
    packStr_eq_some h4, (pack_uint_eq_some h5).1, (pack_uint_eq_some h6).1,
    (pack_uint_eq_some h7).1] at hb
  exact hb.symm

/-- A successful `meta_meta_buf` carries the count then the emitted pairs. -/
theorem meta_meta_buf_eq_some {g : Gmetric} {b : List Nat}
    (h : g.meta_meta_buf = some b) :
    b = be32 g.mlen ++ packPairsT g.metaPairs := by
  unfold Gmetric.meta_meta_buf at h
  rw [Option.bind_eq_some] at h
  obtain ⟨cntB, h1, h⟩ := h
  rw [Option.bind_eq_some] at h
  obtain ⟨pairsB, h2, h⟩ := h
  have hb := (Option.some.injEq _ _).mp h
  rw [(pack_uint_eq_some h1).1, packPairs_eq_some h2] at hb
  exact hb.symm

/-- Unpacking the conjunction of `fits32`. -/
theorem fits32_parts {g : Gmetric} (h : g.fits32 = true) :
    fitsStr g.myhost = true ∧ fitsStr g.gv_name = true ∧ fitsStr g.gv_units = true
    ∧ fitsStr g.gv_value = true ∧ g.gv_tmax < 4294967296 ∧ g.gv_dmax < 4294967296
    ∧ optFitsB g.gm_cluster = true ∧ optFitsB g.gm_desc = true
    ∧ optFitsB g.gm_title = true ∧ optFitsB g.gm_spoof_host = true
    ∧ groupFitsB g.gm_group = true := by
  simp only [Gmetric.fits32, Bool.and_eq_true, decide_eq_true_eq] at h
  tauto

/-- The wire name fits whenever the declared name does. -/
theorem wireName_fits {g : Gmetric} (h : fitsStr g.gv_name = true) :
    fitsStr g.wireName = true := by
  unfold Gmetric.wireName
  split
  · decide
  · exact h

/-- Every type tag string fits. -/
theorem typeValue_fits (t : TypeEnum) : fitsStr t.value = true := by
  cases t <;> decide

/-- Every slope ordinal fits. -/
theorem slopeValue_fits (s : SlopeEnum) : s.value < 4294967296 := by
  cases s <;> decide

/-- The originating host fits whenever the hostname and the optional
spoof string fit. -/
theorem targethost_fits {g : Gmetric} (hmy : fitsStr g.myhost = true)
    (hsp : optFitsB g.gm_spoof_host = true) : fitsStr g.targethost = true := by
  cases hs : g.gm_spoof_host with
  | none => simpa [Gmetric.targethost, hs] using hmy
  | some s =>
      rw [hs] at hsp
      by_cases he : s = ""
      · simpa [Gmetric.targethost, hs, he] using hmy
      · simpa [Gmetric.targethost, hs, he, optFitsB] using hsp

/-- The count fits whenever the group does. -/
theorem mlen_fits {g : Gmetric} (h : groupFitsB g.gm_group = true) :
    g.mlen < 4294967296 := by
  have h1 : optCount g.gm_cluster ≤ 1 := by cases g.gm_cluster <;> simp [optCount]
  have h2 : optCount g.gm_desc ≤ 1 := by cases g.gm_desc <;> simp [optCount]
  have h3 : optCount g.gm_title ≤ 1 := by cases g.gm_title <;> simp [optCount]
  have h4 : optCount g.gm_spoof_host ≤ 1 := by
    cases g.gm_spoof_host <;> simp [optCount]
  have h5 : groupCount g.gm_group < 268435456 := by
    cases hg : g.gm_group with
    | none => simp [groupCount]
    | some l =>
        rw [hg] at h
        simp only [groupFitsB, Bool.and_eq_true, decide_eq_true_eq] at h
        simpa [groupCount] using h.1
  have h6 : (if g.gm_spoof_heartbeat then 1 else 0) ≤ 1 := by split <;> simp
  unfold Gmetric.mlen
  omega

/-- Every pair emitted for one optional field fits, given a fitting key and
field. -/
theorem optPair_fits {k : String} {v : Option String} (hk : fitsStr k = true)
    (hv : optFitsB v = true) :
    ∀ p ∈ optPair k v, fitsStr p.1 = true ∧ fitsStr p.2 = true := by
  intro p hp
  cases v with
  | none => simp [optPair] at hp
  | some s =>
      have hv' : fitsStr s = true := by simpa [optFitsB] using hv
      by_cases he : s = ""
      · simp [optPair, he] at hp
      · simp only [optPair] at hp
        rw [if_neg he, List.mem_singleton] at hp
        subst hp
        exact ⟨hk, hv'⟩

/-- Every emitted pair fits, given `fits32`. -/
theorem metaPairs_fits {g : Gmetric} (h : g.fits32 = true) :
    ∀ p ∈ g.metaPairs, fitsStr p.1 = true ∧ fitsStr p.2 = true := by
  obtain ⟨-, -, -, -, -, -, hcl, hde, hti, hsp, hgr⟩ := fits32_parts h
  intro p hp
  unfold Gmetric.metaPairs at hp
  simp only [List.mem_append] at hp
  rcases hp with ((((hp | hp) | hp) | hp) | hp) | hp
  · exact optPair_fits (by decide) hcl p hp
  · exact optPair_fits (by decide) hde p hp
  · exact optPair_fits (by decide) hti p hp
  · cases hg : g.gm_group with
    | none => rw [hg] at hp; simp [groupPairs] at hp
    | some l =>
        rw [hg] at hp
        simp only [groupPairs, List.mem_map] at hp
        obtain ⟨e, he, hpe⟩ := hp
        subst hpe
        rw [hg] at hgr
        simp only [groupFitsB, Bool.and_eq_true, List.all_eq_true] at hgr
        constructor
        · show fitsStr "GROUP" = true
          decide
        · exact hgr.2 e he
  · exact optPair_fits (by decide) hsp p hp
  · unfold hbPair at hp
    split at hp
    · rw [List.mem_singleton] at hp
      subst hp
      exact ⟨by decide, by decide⟩
    · simp at hp

/-- Under `fits32` the value-description part encodes successfully. -/
theorem meta_value_buf_ok {g : Gmetric} (h : g.fits32 = true) :
    g.meta_value_buf = some (packStrT g.wireName
      ++ pack_bool (truthyStr g.gm_spoof_host) ++ packStrT g.gv_type.value
      ++ packStrT g.wireName ++ packStrT g.gv_units ++ be32 g.gv_slope.value
      ++ be32 g.gv_tmax ++ be32 g.gv_dmax) := by
  obtain ⟨-, hna, hun, -, htm, hdm, -⟩ := fits32_parts h
  unfold Gmetric.meta_value_buf
  rw [packStr_ok_fits (wireName_fits hna), packStr_ok_fits (typeValue_fits _),
    packStr_ok_fits hun, pack_uint_ok (slopeValue_fits _), pack_uint_ok htm,
    pack_uint_ok hdm]
  rfl

/-- Under `fits32` the extra-metadata part encodes successfully. -/
theorem meta_meta_buf_ok {g : Gmetric} (h : g.fits32 = true) :
    g.meta_meta_buf = some (be32 g.mlen ++ packPairsT g.metaPairs) := by
  obtain ⟨-, -, -, -, -, -, -, -, -, -, hgr⟩ := fits32_parts h
  unfold Gmetric.meta_meta_buf
  rw [pack_uint_ok (mlen_fits hgr), packPairs_ok (metaPairs_fits h)]
  rfl

/-- Under `fits32` the whole metadata buffer encodes successfully. -/
theorem get_metabuf_ok {g : Gmetric} (h : g.fits32 = true) :
    g.get_metabuf = some (pack_int 128 ++ packStrT g.targethost
      ++ (packStrT g.wireName ++ pack_bool (truthyStr g.gm_spoof_host)
          ++ packStrT g.gv_type.value ++ packStrT g.wireName
          ++ packStrT g.gv_units ++ be32 g.gv_slope.value
          ++ be32 g.gv_tmax ++ be32 g.gv_dmax)
      ++ (be32 g.mlen ++ packPairsT g.metaPairs)) := by
  obtain ⟨hmy, -, -, -, -, -, -, -, -, hsp, -⟩ := fits32_parts h
  unfold Gmetric.get_metabuf
  rw [packStr_ok_fits (targethost_fits hmy hsp), meta_value_buf_ok h,
    meta_meta_buf_ok h]
  rfl

/-- Under `fits32` the whole value buffer encodes successfully. -/
theorem get_valuebuf_ok {g : Gmetric} (h : g.fits32 = true) :
    g.get_valuebuf = some (pack_int 133 ++ packStrT g.targethost
      ++ packStrT g.wireName ++ pack_bool (truthyStr g.gm_spoof_host)
      ++ packStrT "%s" ++ packStrT g.gv_value) := by
  obtain ⟨hmy, hna, -, hva, -, -, -, -, -, hsp, -⟩ := fits32_parts h
  unfold Gmetric.get_valuebuf
  rw [packStr_ok_fits (targethost_fits hmy hsp),
    packStr_ok_fits (wireName_fits hna), packStr_ok_fits (by decide : fitsStr "%s" = true),
    packStr_ok_fits hva]
  rfl

/-! ### Claim theorems -/

/-- C1 (code-bug evidence): the spoof-host validity check never fires.  The
validator only ever returns `False` (malformed input) or `None` (well-formed
input), both falsy, so the caller's `if value and validate(...)` guard in
`__check_gm_var__` can never raise: every assignment to `gm_spoof_host` —
including the malformed `noColon`, which the claim says must raise a
`ValidationError` and leave the field unchanged — succeeds and stores the
value. -/
theorem c1_spoof_check_never_raises :
    (∀ (g : Gmetric) (v : Option String),
      g.setSpoofHost v = Except.ok { g with gm_spoof_host := v })
    ∧ (Gmetric.mkDefault "myhost").setSpoofHost (some "noColon")
        = Except.ok { Gmetric.mkDefault "myhost" with
                      gm_spoof_host := some "noColon" } := by
  have hno : ∀ s : String, optBoolTruthy (validate_spoof_host s) = false := by
    intro s
    unfold validate_spoof_host
    split
    · split <;> rfl
    · rfl
  constructor
  · intro g v
    cases v with
    | none => rfl
    | some s =>
        have hcond : (!(s == "") && optBoolTruthy (validate_spoof_host s)) = false := by
          rw [hno s]
          simp
        unfold Gmetric.setSpoofHost
        simp [check_gm_spoof_host, hcond]
  · rfl

/-- C4: assigning a string containing a double quote to any of the string
fields `name`, `value`, `units`, `cluster`, `desc`, `title`, or inside a
`group` list, raises a `ValidationError`; since the check in `__setattr__`
runs before the store, no updated descriptor exists and the field keeps its
prior value. -/
theorem c4_quote_rejected (g : Gmetric) (s : String)
    (hq : s.toList.contains quoteChar = true) :
    g.setName s = Except.error () ∧ g.setValue s = Except.error ()
    ∧ g.setUnits s = Except.error () ∧ g.setCluster (some s) = Except.error ()
    ∧ g.setDesc (some s) = Except.error () ∧ g.setTitle (some s) = Except.error ()
    ∧ ∀ l : List String, s ∈ l → g.setGroup (some l) = Except.error () := by
  have hne : s ≠ "" := by
    intro he
    subst he
    exact absurd hq (by decide)
  have hcq : check_containing_quot s = true := by
    unfold check_containing_quot
    rw [hq]
    simp [hne]
  have hgv : check_gv_str s = Except.error () := by
    simp [check_gv_str, hcq]
  have hgm : check_gm_opt_str (some s) = Except.error () := by
    simp [check_gm_opt_str, hne, hcq]
  have hgrp : ∀ l : List String, s ∈ l → check_group_elems l = Except.error () := by
    intro l
    induction l with
    | nil => intro h; simp at h
    | cons e rest ih =>
        intro h
        rw [List.mem_cons] at h
        by_cases hce : check_containing_quot e = true
        · simp [check_group_elems, hce]
        · rcases h with he | hmem
          · subst he; exact absurd hcq hce
          · simp [check_group_elems, hce, ih hmem]
  refine ⟨?_, ?_, ?_, ?_, ?_, ?_, ?_⟩
  · simp [Gmetric.setName, hgv]
  · simp [Gmetric.setValue, hgv]
  · simp [Gmetric.setUnits, hgv]
  · simp [Gmetric.setCluster, hgm]
  · simp [Gmetric.setDesc, hgm]
  · simp [Gmetric.setTitle, hgm]
  · intro l hl
    simp [Gmetric.setGroup, check_gm_group, hgrp l hl]

/-- C4 witness at a concrete descriptor and the one-character string
consisting of a double quote. -/
theorem c4_quote_rejected_witness :
    (Gmetric.mkDefault "myhost").setName quoteStr = Except.error ()
    ∧ (Gmetric.mkDefault "myhost").setGroup (some ["ok", quoteStr])
        = Except.error () := by
  have h := c4_quote_rejected (Gmetric.mkDefault "myhost") quoteStr (by decide)
  exact ⟨h.1, h.2.2.2.2.2.2 ["ok", quoteStr] (by simp)⟩

/-- C6: sending a descriptor with `spoof_heartbeat` set and `spoof_host`
unset raises the inconsistent-spoof-state `ValueError` before the buffers
are encoded and before any socket is created or datagram sent: the
transport state is returned unchanged. -/
theorem c6_inconsistent_spoof_no_io (st : SenderSt) (g : Gmetric)
    (hhb : g.gm_spoof_heartbeat = true) (hsp : g.gm_spoof_host = none) :
    Sender.send st g = (st, Except.error "spoof-heatbeat needs spoof-host") := by
  unfold Sender.send
  rw [hhb, hsp]
  rfl

/-- C6 witness: a fresh heartbeat descriptor with no spoof host. -/
theorem c6_inconsistent_spoof_no_io_witness :
    Sender.send stFresh ((Gmetric.mkDefault "myhost").set_heartbeat)
      = (stFresh, Except.error "spoof-heatbeat needs spoof-host") :=
  c6_inconsistent_spoof_no_io stFresh _ rfl rfl

/-- C7: constructing a `Sender` fails with the invalid-port `ValueError`
exactly for ports outside 1-65535, and succeeds — with no socket created
and nothing sent — exactly for ports within 1-65535. -/
theorem c7_port_range (p : Int) :
    (Sender.mkSender p = Except.error "" ↔ (p < 1 ∨ 65535 < p))
    ∧ (Sender.mkSender p = Except.ok { socketCreated := false, sent := [] }
        ↔ (1 ≤ p ∧ p ≤ 65535)) := by
  constructor
  · constructor
    · intro h
      unfold Sender.mkSender at h
      split at h
      · omega
      · exact absurd h (by simp)
    · intro h
      unfold Sender.mkSender
      rw [if_pos (by omega)]
  · constructor
    · intro h
      unfold Sender.mkSender at h
      split at h
      · exact absurd h (by simp)
      · omega
    · intro h
      unfold Sender.mkSender
      rw [if_neg (by omega)]

/-- A successful `send` marks the socket created and appends exactly the
metadata datagram then the value datagram. -/
theorem send_ok_sent (st : SenderSt) (g : Gmetric) (m v : List Nat)
    (hm : g.get_metabuf = some m) (hv : g.get_valuebuf = some v)
    (hok : (Sender.send st g).2 = Except.ok ()) :
    (Sender.send st g).1.sent = st.sent ++ [m, v] := by
  unfold Sender.send at hok ⊢
  by_cases hc : (g.gm_spoof_heartbeat && !(truthyStr g.gm_spoof_host)) = true
  · rw [if_pos hc] at hok
    exact absurd hok (by simp)
  · rw [if_neg hc] at hok ⊢
    rw [hm, hv] at hok ⊢

/-- C9: a successful send appends the metadata datagram then the value
datagram, and two back-to-back successful sends on the same transport
produce the four datagrams metadata1, value1, metadata2, value2, in order. -/
theorem c9_two_datagrams_in_order (st : SenderSt) (g1 g2 : Gmetric)
    (m1 v1 m2 v2 : List Nat)
    (hm1 : g1.get_metabuf = some m1) (hv1 : g1.get_valuebuf = some v1)
    (hm2 : g2.get_metabuf = some m2) (hv2 : g2.get_valuebuf = some v2)
    (hok1 : (Sender.send st g1).2 = Except.ok ())
    (hok2 : (Sender.send (Sender.send st g1).1 g2).2 = Except.ok ()) :
    (Sender.send st g1).1.sent = st.sent ++ [m1, v1]
    ∧ (Sender.send (Sender.send st g1).1 g2).1.sent
        = st.sent ++ [m1, v1, m2, v2] := by
  have e1 := send_ok_sent st g1 m1 v1 hm1 hv1 hok1
  have e2 := send_ok_sent (Sender.send st g1).1 g2 m2 v2 hm2 hv2 hok2
  refine ⟨e1, ?_⟩
  rw [e2, e1]
  simp

/-- C9 witness: two metrics sent back-to-back from a fresh transport. -/
theorem c9_two_datagrams_in_order_witness :
    (Sender.send stFresh gFull).1.sent
      = stFresh.sent ++ [(gFull.get_metabuf).getD [], (gFull.get_valuebuf).getD []]
    ∧ (Sender.send (Sender.send stFresh gFull).1 gW2).1.sent
      = stFresh.sent ++ [(gFull.get_metabuf).getD [], (gFull.get_valuebuf).getD [],
          (gW2.get_metabuf).getD [], (gW2.get_valuebuf).getD []] :=
  c9_two_datagrams_in_order stFresh gFull gW2
    ((gFull.get_metabuf).getD []) ((gFull.get_valuebuf).getD [])
    ((gW2.get_metabuf).getD []) ((gW2.get_valuebuf).getD [])
    rfl rfl rfl rfl rfl rfl

/-- C3: for a descriptor satisfying the spec's data-model invariants, any
value buffer the encoder produces has exactly the claimed layout: tag 133,
originating host (spoof host if set, else local hostname), heartbeat-aware
metric name, the spoofed flag, the fixed format string, and the stringified
value. -/
theorem c3_valuebuf_layout (g : Gmetric) (hv : g.validB = true)
    (buf : List Nat) (hb : g.get_valuebuf = some buf) :
    buf = g.valuebuf_claim := by
  have hsp : optNonemptyB g.gm_spoof_host = true :=
    wfSpoof_optNonempty (validB_spoof hv)
  unfold Gmetric.get_valuebuf at hb
  rw [Option.bind_eq_some] at hb
  obtain ⟨hostB, h1, hb⟩ := hb
  rw [Option.bind_eq_some] at hb
  obtain ⟨nameB, h2, hb⟩ := hb
  rw [Option.bind_eq_some] at hb
  obtain ⟨fmtB, h3, hb⟩ := hb
  rw [Option.bind_eq_some] at hb
  obtain ⟨valB, h4, hb⟩ := hb
  have hbuf := ((Option.some.injEq _ _).mp hb).symm
  rw [packStr_eq_some h1, packStr_eq_some h2, packStr_eq_some h3,
    packStr_eq_some h4] at hbuf
  rw [hbuf]
  unfold Gmetric.valuebuf_claim
  rw [targethost_eq_claimHost hsp]

/-- C3 witness at a fully populated valid descriptor. -/
theorem c3_valuebuf_layout_witness :
    (gFull.get_valuebuf).getD [] = gFull.valuebuf_claim :=
  c3_valuebuf_layout gFull (by decide) ((gFull.get_valuebuf).getD []) (by decide)

/-- C2 (amended): for a descriptor satisfying the spec's data-model
invariants whose set optional string fields are non-empty, any metadata
buffer the encoder produces has exactly the claimed layout, with the pair
count equal to the number of emitted pairs and the pairs in the fixed order
CLUSTER, DESC, TITLE, GROUP (per element, caller order), SPOOF_HOST,
SPOOF_HEARTBEAT. -/
theorem c2_metabuf_layout (g : Gmetric) (hv : g.validB = true)
    (hc : optNonemptyB g.gm_cluster = true) (hd : optNonemptyB g.gm_desc = true)
    (ht : optNonemptyB g.gm_title = true)
    (buf : List Nat) (hb : g.get_metabuf = some buf) :
    buf = g.metabuf_claim := by
  have hsp : optNonemptyB g.gm_spoof_host = true :=
    wfSpoof_optNonempty (validB_spoof hv)
  unfold Gmetric.get_metabuf at hb
  rw [Option.bind_eq_some] at hb
  obtain ⟨hostB, h1, hb⟩ := hb
  rw [Option.bind_eq_some] at hb
  obtain ⟨mvB, h2, hb⟩ := hb
  rw [Option.bind_eq_some] at hb
  obtain ⟨mmB, h3, hb⟩ := hb
  have hbuf := ((Option.some.injEq _ _).mp hb).symm
  rw [packStr_eq_some h1, meta_value_buf_eq_some h2,
    meta_meta_buf_eq_some h3] at hbuf
  rw [hbuf]
  unfold Gmetric.metabuf_claim
  rw [targethost_eq_claimHost hsp, ← mlen_eq_claimPairs_length g,
    ← metaPairs_eq_claim hc hd ht hsp]
  simp [List.append_assoc]

/-- C2 counterexample to the claim as stated: a descriptor that is valid per
the spec's data model but has `cluster` set to the empty string.  The
encoder counts the set field in the extra-pair count yet emits no pair for
it, so the produced buffer differs from the claimed layout (which emits one
pair per set field and counts the emitted pairs). -/
theorem c2_counterexample :
    gC2.validB = true ∧ (gC2.get_metabuf).isSome = true
    ∧ gC2.get_metabuf ≠ some gC2.metabuf_claim := by
  refine ⟨by decide, by decide, by decide⟩

/-- C2 witness at a fully populated valid descriptor with non-empty
optional fields. -/
theorem c2_metabuf_layout_witness :
    (gFull.get_metabuf).getD [] = gFull.metabuf_claim :=
  c2_metabuf_layout gFull (by decide) (by decide) (by decide) (by decide)
    ((gFull.get_metabuf).getD []) (by decide)

/-- C5: whatever the descriptor held before, after `set_heartbeat()` the
metadata buffer fixes the name field to `heartbeat` (both copies), the type
tag to `uint32`, and slope, tmax and dmax to 0; only the originating host,
the spoofed flag and the trailing extra-metadata section still depend on
the prior fields. -/
theorem c5_heartbeat_metabuf (g : Gmetric) :
    (g.set_heartbeat).get_metabuf =
      (packStr (g.set_heartbeat).targethost).bind fun hostB =>
      ((g.set_heartbeat).meta_meta_buf).bind fun mmB =>
      some (pack_int 128 ++ hostB
        ++ (packStrT "heartbeat" ++ pack_bool (truthyStr g.gm_spoof_host)
            ++ packStrT "uint32" ++ packStrT "heartbeat" ++ packStrT ""
            ++ be32 0 ++ be32 0 ++ be32 0)
        ++ mmB) := by
  have hmv : (g.set_heartbeat).meta_value_buf
      = some (packStrT "heartbeat" ++ pack_bool (truthyStr g.gm_spoof_host)
          ++ packStrT "uint32" ++ packStrT "heartbeat" ++ packStrT ""
          ++ be32 0 ++ be32 0 ++ be32 0) := by
    rfl
  unfold Gmetric.get_metabuf
  rw [hmv]
  rfl

/-- C8 counterexample to the claim as stated: `gv_tmax = 2^32` passes the
per-field validation (which only requires `int(value) >= 0`), yet
`get_metabuf` raises `struct.error` inside `pack_uint`. -/
theorem c8_counterexample :
    (Gmetric.mkDefault "myhost").setTmax 4294967296 = Except.ok gC8
    ∧ gC8.get_metabuf = none := by
  refine ⟨rfl, by decide⟩

/-- C8 (amended): the encoder never fails on a descriptor all of whose
`pack_uint` arguments — tmax, dmax, every encoded string length, and the
derived pair count — fit the XDR `uint32` range. -/
theorem c8_encoder_total (g : Gmetric) (h : g.fits32 = true) :
    (g.get_metabuf).isSome = true ∧ (g.get_valuebuf).isSome = true := by
  rw [get_metabuf_ok h, get_valuebuf_ok h]
  exact ⟨rfl, rfl⟩

/-- C8 witness at a fully populated descriptor. -/
theorem c8_encoder_total_witness :
    (gFull.get_metabuf).isSome = true ∧ (gFull.get_valuebuf).isSome = true :=
  c8_encoder_total gFull (by decide)

/-- C10 (amended): when each of cluster, desc, title and spoof_host is
unset or non-empty, the `uint32` count written into the metadata buffer
equals the number of key/value pairs emitted after it. -/
theorem c10_count_matches_pairs (g : Gmetric)
    (hc : optNonemptyB g.gm_cluster = true) (hd : optNonemptyB g.gm_desc = true)
    (ht : optNonemptyB g.gm_title = true)
    (hs : optNonemptyB g.gm_spoof_host = true) :
    g.mlen = g.metaPairs.length := by
  rw [metaPairs_eq_claim hc hd ht hs, mlen_eq_claimPairs_length]

/-- C10 counterexample to the claim as stated: `cluster` set to the empty
string passes validation, is counted (`is not None`) in the written count,
but no pair is emitted for it (the emission test is truthiness). -/
theorem c10_counterexample :
    check_gm_opt_str (some "") = Except.ok () ∧ gC10.mlen = 1
    ∧ gC10.metaPairs.length = 0 := by
  refine ⟨rfl, by decide, by decide⟩

/-- C10 witness at a fully populated descriptor with non-empty optional
fields. -/
theorem c10_count_matches_pairs_witness : gFull.mlen = gFull.metaPairs.length :=
  c10_count_matches_pairs gFull (by decide) (by decide) (by decide) (by decide)
